import Mathlib

/-!
Shallow embedding of `airflow/operators/python_operator.py`, centred on
`PythonVirtualenvOperator`: constructor validation, argument serialization,
script synthesis, subprocess command generation, the string-args channel,
the execution sequence of `execute_callable`, and result reading.

Modelling conventions:
* Python values that cross the pickle boundary are modelled by `PyValue`.
* A pickled file's content is a `Pickled` record: the library that wrote it
  (`dill` or `pickle`), the writer's Python major version, and the value.
  A zero-length file is `Option.none`; any pickled blob is non-empty, which
  is faithful to both libraries (no value serializes to zero bytes).
* Machine-level concerns (actual byte streams, OS errors other than a
  missing file) are outside the model.
-/

namespace PythonOperator

/-- A Python value as far as the argument/result codec is concerned. -/
inductive PyValue where
  | none
  | bool (b : Bool)
  | int (n : Int)
  | str (s : String)
  | list (xs : List PyValue)
  | dict (kvs : List (String × PyValue))

/-- `v is None` in Python. -/
def PyValue.isNone : PyValue → Bool
  | PyValue.none => true
  | _ => false

/-- Content of a non-empty pickled file: the library that produced it,
the writer's Python major version, and the encoded value. -/
structure Pickled where
  lib : String
  writerMajor : Nat
  value : PyValue

/-- The aspects of `python_callable` the operator inspects:
`callable(x)` (checked by `PythonOperator.__init__`),
`isinstance(x, types.FunctionType)` and `x.__name__`
(checked by `PythonVirtualenvOperator.__init__`), and
`dedent(inspect.getsource(x))` split into lines (used by
`_generate_python_code`). -/
structure PyCallable where
  isCallableObj : Bool
  isFunction : Bool
  name : String
  sourceLines : List String

/-- `(lambda x: 0).__name__` -/
def lambdaName : String := "<lambda>"

/-- The state of a `PythonVirtualenvOperator` instance after the
`or []` / `or` {} normalizations in the constructors (lines 82-83 and
236-240 of the source). -/
structure VOpParams where
  python_callable : PyCallable
  requirements : List String
  python_version : Option String
  use_dill : Bool
  system_site_packages : Bool
  op_args : List PyValue
  op_kwargs : List (String × PyValue)
  string_args : List String
  templates_dict : Option (List (String × PyValue))

/-- `str.lower()` per character; requirement names are ASCII, for which
Python's lowercasing is the A-Z shift modelled here. -/
def pyCharLower (c : Char) : Char :=
  if c.toNat ≥ 65 && c.toNat ≤ 90 then Char.ofNat (c.toNat + 32) else c

/-- `s.lower()`. -/
def pyLower (s : String) : String := String.mk (s.data.map pyCharLower)

/-- `s.startswith(pre)`. -/
def pyStartsWith (s pre : String) : Bool := pre.data.isPrefixOf s.data

/-- `map(lambda x: x.lower().startswith('dill'), self.requirements)` folded
through `any(...)`. -/
def dill_in_requirements (requirements : List String) : Bool :=
  requirements.any (fun x => pyStartsWith (pyLower x) "dill")

/-- `self._pass_op_args()`: `len(self.op_args) + len(self.op_kwargs) > 0`. -/
def pass_op_args (p : VOpParams) : Bool :=
  decide (0 < p.op_args.length + p.op_kwargs.length)

/-- The condition of the dill check at source lines 244-246:
`(not system_site_packages) and use_dill and not any(dill_in_requirements)`. -/
def dillCheckTriggers (p : VOpParams) : Bool :=
  (!p.system_site_packages) && p.use_dill && (!dill_in_requirements p.requirements)

/-- The condition of the callable check at source lines 248-250:
`not isinstance(python_callable, types.FunctionType)
 or python_callable.__name__ == (lambda x: 0).__name__`. -/
def callableCheckTriggers (p : VOpParams) : Bool :=
  (!p.python_callable.isFunction) || (p.python_callable.name == lambdaName)

/-- The condition of the version check at source lines 254-256:
`python_version is not None and
 str(python_version)[0] != str(sys.version_info[0]) and self._pass_op_args()`.
`callerMajor` stands for `sys.version_info[0]`; `str(x)[0]` is modelled as
the first character of the string form. -/
def versionCheckTriggers (callerMajor : Nat) (p : VOpParams) : Bool :=
  match p.python_version with
  | Option.none => false
  | Option.some v =>
      (v.data.head? != (toString callerMajor).data.head?) && pass_op_args p

/-- The configuration errors (`AirflowException`s) a constructor can raise. -/
inductive ConfigError where
  | notCallable
  | dillMisconfig
  | notAFunction
  | crossVersionArgs
  deriving DecidableEq

/-- `PythonVirtualenvOperator.__init__` as a pure validator: the `super`
call runs `PythonOperator.__init__`'s `callable(...)` check first
(source line 79), then the three subclass checks run in source order
(lines 244, 248, 254). No subprocess is spawned and no workspace is
created here: construction only validates and stores fields. -/
def construct (callerMajor : Nat) (p : VOpParams) : Except ConfigError Unit :=
  if !p.python_callable.isCallableObj then Except.error ConfigError.notCallable
  else if dillCheckTriggers p then Except.error ConfigError.dillMisconfig
  else if callableCheckTriggers p then Except.error ConfigError.notAFunction
  else if versionCheckTriggers callerMajor p then Except.error ConfigError.crossVersionArgs
  else Except.ok ()

/-- Source lines 366-369: `pickling_library = 'dill'` when `use_dill` else
`'pickle'`. -/
def pickling_library_of (use_dill : Bool) : String :=
  if use_dill then "dill" else "pickle"

/-- The pickling library selected by an operator's `use_dill` flag. -/
def pickling_library (p : VOpParams) : String :=
  pickling_library_of p.use_dill

/-- The `{'args': self.op_args, 'kwargs': self.op_kwargs}` dictionary built
by `_write_args` (source line 316). -/
def arg_dict_value (p : VOpParams) : PyValue :=
  PyValue.dict [("args", PyValue.list p.op_args), ("kwargs", PyValue.dict p.op_kwargs)]

/-- `_write_args` (source lines 312-320): the input file's content after the
call. `Option.none` means the file was never created. When `_pass_op_args()`
holds, the arg dictionary is dumped with `dill` when `use_dill` else with
`pickle`; the writer runs in the caller's interpreter (`callerMajor`). -/
def write_args (callerMajor : Nat) (p : VOpParams) : Option Pickled :=
  if pass_op_args p then
    Option.some { lib := pickling_library p, writerMajor := callerMajor,
                  value := arg_dict_value p }
  else Option.none

/-- The load line `_generate_python_code` emits when `_pass_op_args()` holds
(source lines 373-374), parameterized by the pickling library name. -/
def load_args_line_str (lib : String) : String :=
  "with open(sys.argv[1], \"rb\") as f: arg_dict = " ++ lib ++ ".load(f)"

/-- The line `_generate_python_code` emits when no args were passed
(source line 376): `arg_dict = {"args": [], "kwargs": {}}`. -/
def empty_args_line_str : String :=
  "arg_dict = \x7b\"args\": [], \"kwargs\": \x7b\x7d\x7d"

/-- `load_args_line` as selected at source lines 372-376. -/
def load_args_line (p : VOpParams) : String :=
  if pass_op_args p then load_args_line_str (pickling_library p)
  else empty_args_line_str

/-- `_generate_python_code` (source lines 365-396), as the list of lines of
the dedented template with the three format slots filled in. The callable's
dedented source text occupies the `{python_callable_lines}` slot. -/
def generate_python_code (p : VOpParams) : List String :=
  ["import " ++ pickling_library p,
   "import sys",
   load_args_line p,
   "args = arg_dict[\"args\"]",
   "kwargs = arg_dict[\"kwargs\"]",
   "with open(sys.argv[3], \x27r\x27) as f:",
   "    virtualenv_string_args = list(map(lambda x: x.strip(), list(f)))"]
  ++ p.python_callable.sourceLines
  ++ ["res = " ++ p.python_callable.name ++ "(*args, **kwargs)",
      "with open(sys.argv[2], \x27wb\x27) as f:",
      "    res is not None and " ++ pickling_library p ++ ".dump(res, f)"]

/-- `_generate_virtualenv_cmd` (source lines 343-349). -/
def generate_virtualenv_cmd (p : VOpParams) (tmp_dir : String) : List String :=
  ["virtualenv", tmp_dir]
  ++ (if p.system_site_packages then ["--system-site-packages"] else [])
  ++ (match p.python_version with
      | Option.some v => ["--python=python" ++ v]
      | Option.none => [])

/-- `_generate_pip_install_cmd` (source lines 351-357): `[]` (a no-op,
falsy in the `if cmd:` guard of `execute_callable`) when `requirements`
is empty. -/
def generate_pip_install_cmd (p : VOpParams) (tmp_dir : String) : List String :=
  if p.requirements.length = 0 then []
  else (tmp_dir ++ "/bin/pip") :: "install" :: p.requirements

/-- `_generate_python_cmd` (source lines 359-363). -/
def generate_python_cmd (tmp_dir script_filename input_filename output_filename
    string_args_filename : String) : List String :=
  [tmp_dir ++ "/bin/python", script_filename,
   input_filename, output_filename, string_args_filename]

/-! ### The string-args channel -/

/-- `'\n'.join(xs)` at the character level. -/
def joinNL : List String → List Char
  | [] => []
  | [x] => x.data
  | x :: y :: rest => x.data ++ '\n' :: joinNL (y :: rest)

/-- `_write_string_args` (source lines 307-310): the text written to
`string_args.txt`. `map(str, ...)` is the identity on strings. -/
def write_string_args (string_args : List String) : String :=
  String.mk (joinNL string_args)

/-- The whitespace set of Python's `str.strip()`. -/
def isPySpace (c : Char) : Bool :=
  c = ' ' || c = '\t' || c = '\n' || c = '\x0d' || c = '\x0b' || c = '\x0c'

/-- Python's `str.strip()` on a character list. -/
def pyStripList (cs : List Char) : List Char :=
  (((cs.dropWhile isPySpace).reverse).dropWhile isPySpace).reverse

/-- Iterating a Python text file (`list(f)`): each `'\n'` terminates a line
that keeps its terminator; trailing characters after the last `'\n'` form a
final line; an empty file yields no lines. `acc` holds the current line's
characters in reverse. -/
def pyFileLinesAux (acc : List Char) : List Char → List (List Char)
  | [] => if acc = [] then [] else [acc.reverse]
  | c :: rest =>
      if c = '\n' then (acc.reverse ++ ['\n']) :: pyFileLinesAux [] rest
      else pyFileLinesAux (c :: acc) rest

/-- `list(map(lambda x: x.strip(), list(f)))` (source line 388) applied to
the content of the string-args file. -/
def read_string_args (content : String) : List String :=
  (pyFileLinesAux [] content.data).map (fun cs => String.mk (pyStripList cs))

/-! ### Result file and `_read_result` -/

/-- The failures `pickle.load`/`dill.load` can raise in this model.
Cross-major-version pickle data raises `ValueError` (unsupported pickle
protocol); `otherError` stands for any exception that is not a `ValueError`
and so is not caught by the `except ValueError` handler. -/
inductive PyErr where
  | valueError
  | otherError
  deriving DecidableEq

/-- `pickle.load` on a pickled blob: succeeds when the writer's Python major
version matches the reader's, else raises `ValueError`. -/
def pickle_load (readerMajor : Nat) (p : Pickled) : Except PyErr PyValue :=
  if p.writerMajor = readerMajor then Except.ok p.value
  else Except.error PyErr.valueError

/-- `dill.load`, same failure model as `pickle_load`. -/
def dill_load (readerMajor : Nat) (p : Pickled) : Except PyErr PyValue :=
  if p.writerMajor = readerMajor then Except.ok p.value
  else Except.error PyErr.valueError

/-- The message logged by `_read_result` before re-raising (source
lines 332-334). -/
def deserialize_error_msg : String :=
  "Error deserializing result. Note that result deserialization " ++
  "is not supported across major Python versions."

/-- `_read_result` (source lines 322-335) on the output file's content
(`Option.none` = zero-length file). Returns the log lines it emits paired
with its outcome. `os.stat(...).st_size == 0` maps to `content = none`;
otherwise the blob is loaded with `dill` when `use_dill` else with
`pickle`; a `ValueError` is logged and re-raised, any other exception
propagates unlogged. -/
def read_result (use_dill : Bool) (readerMajor : Nat) (content : Option Pickled) :
    List String × Except PyErr PyValue :=
  match content with
  | Option.none => ([], Except.ok PyValue.none)
  | Option.some p =>
      match (if use_dill then dill_load readerMajor p else pickle_load readerMajor p) with
      | Except.ok v => ([], Except.ok v)
      | Except.error e =>
          if e = PyErr.valueError then ([deserialize_error_msg], Except.error e)
          else ([], Except.error e)

/-- `os.stat` on a missing file raises; the outer `Option` distinguishes a
missing output file from an existing (possibly empty) one. -/
inductive StatErr where
  | fileNotFound
  deriving DecidableEq

/-- `_read_result` including the unconditional `os.stat` call on the path:
a missing file makes `os.stat` raise before any size check. -/
def read_result_fs (use_dill : Bool) (readerMajor : Nat)
    (file : Option (Option Pickled)) :
    Except StatErr (List String × Except PyErr PyValue) :=
  match file with
  | Option.none => Except.error StatErr.fileNotFound
  | Option.some content => Except.ok (read_result use_dill readerMajor content)

/-- The output file as left by the synthesized script's final two lines
(source lines 391-392): `open(sys.argv[2], 'wb')` creates/truncates the
file unconditionally, and `res is not None and {lib}.dump(res, f)` writes
a blob exactly when the result is not `None`. The result is the content of
the now-existing file. -/
def script_output_file (lib : String) (scriptMajor : Nat) (res : PyValue) :
    Option Pickled :=
  if res.isNone then Option.none
  else Option.some { lib := lib, writerMajor := scriptMajor, value := res }

/-- The output-file slot of the filesystem after a successful script run:
the file exists (outer `some`), holding `script_output_file ...`. -/
def script_write_result (lib : String) (scriptMajor : Nat) (res : PyValue) :
    Option (Option Pickled) :=
  Option.some (script_output_file lib scriptMajor res)

/-! ### `execute_callable`: templates merge and step sequence -/

/-- Python dict assignment `d[k] = v` on the assoc-list model: overwrite an
existing binding, else append. -/
def dictSet (d : List (String × PyValue)) (k : String) (v : PyValue) :
    List (String × PyValue) :=
  if d.any (fun kv => kv.1 == k) then
    d.map (fun kv => if kv.1 == k then (k, v) else kv)
  else d ++ [(k, v)]

/-- Source lines 264-265: `if self.templates_dict:
self.op_kwargs['templates_dict'] = self.templates_dict`. Python truthiness:
`None` and the empty dict are falsy. The result is the operator state the
rest of `execute_callable` (in particular `_write_args` and
`_write_script`) observes. -/
def merged (p : VOpParams) : VOpParams :=
  match p.templates_dict with
  | Option.none => p
  | Option.some td =>
      if td.isEmpty then p
      else { p with op_kwargs := dictSet p.op_kwargs "templates_dict" (PyValue.dict td) }

/-- The observable steps of one `execute_callable` invocation
(source lines 262-289). -/
inductive Step where
  | createWorkspace
  | venvCmd
  | pipInstallCmd
  | writeInputs
  | writeScript
  | writeStringArgs
  | runScriptCmd
  | readResultStep
  | releaseWorkspace
  deriving DecidableEq

/-- The steps of the `with`-block body, in source order (lines 273-289):
environment creation, then `if cmd: self._execute_in_subprocess(cmd)` for
the pip command (skipped exactly when `_generate_pip_install_cmd` returned
the empty, falsy list), then the three writes, the script subprocess, and
the result read. -/
def bodySteps (p : VOpParams) (tmp_dir : String) : List Step :=
  [Step.venvCmd]
  ++ (if generate_pip_install_cmd p tmp_dir = [] then [] else [Step.pipInstallCmd])
  ++ [Step.writeInputs, Step.writeScript, Step.writeStringArgs,
      Step.runScriptCmd, Step.readResultStep]

/-- Run a statement sequence under exception semantics: each step is
attempted in order; the first step for which `fails` holds raises, and no
later statement runs. Returns the attempted steps and whether the whole
sequence completed. -/
def runSeq (fails : Step → Bool) : List Step → List Step × Bool
  | [] => ([], true)
  | s :: rest =>
      if fails s then ([s], false)
      else
        let r := runSeq fails rest
        (s :: r.1, r.2)

/-- `execute_callable` (source lines 262-289) as a trace: the
`with TemporaryDirectory(...)` acquires the workspace (if that very
acquisition raises, nothing else runs and there is no directory to
release); otherwise the body runs under exception semantics and the
release is appended on every exit path (the context manager's `finally`).
The boolean is `true` exactly on the fully successful path that returns
`self._read_result(output_filename)`. -/
def execute_callable_trace (p : VOpParams) (tmp_dir : String)
    (fails : Step → Bool) : List Step × Bool :=
  if fails Step.createWorkspace then ([Step.createWorkspace], false)
  else
    let r := runSeq fails (bodySteps p tmp_dir)
    (Step.createWorkspace :: r.1 ++ [Step.releaseWorkspace], r.2)

/-- The attempted prefix of a statement sequence: every step up to and
including the first failing one. -/
def takeThruFirstFail (fails : Step → Bool) : List Step → List Step
  | [] => []
  | s :: rest =>
      if fails s then [s] else s :: takeThruFirstFail fails rest

/-! ### Concrete instances used to instantiate the theorems -/

/-- A well-formed callable: a plain named function. -/
def fnSample : PyCallable :=
  { isCallableObj := true, isFunction := true, name := "f",
    sourceLines := ["def f():", "    return 1"] }

/-- A baseline operator state: valid callable, all optional parameters at
their normalized defaults. -/
def pBase : VOpParams :=
  { python_callable := fnSample, requirements := [],
    python_version := Option.none, use_dill := false,
    system_site_packages := true, op_args := [], op_kwargs := [],
    string_args := [], templates_dict := Option.none }

/-! ### Claims about constructor validation -/

/-- **C4**: constructing a `PythonVirtualenvOperator` with a
`python_callable` that is not a plain function (not a `FunctionType`
instance) or whose `__name__` equals the synthetic anonymous-lambda name
raises a configuration error at construction. `construct` is a pure
validator: no subprocess step and no workspace exists at this point. -/
theorem claim_C4_nonfunction_or_lambda_rejected (callerMajor : Nat) (p : VOpParams)
    (h : p.python_callable.isFunction = false ∨ p.python_callable.name = lambdaName) :
    ∃ e, construct callerMajor p = Except.error e := by
  unfold construct
  split
  · exact ⟨_, rfl⟩
  · split
    · exact ⟨_, rfl⟩
    · split
      · exact ⟨_, rfl⟩
      · next hf =>
          exfalso
          rcases h with h | h <;>
            simp [callableCheckTriggers, h] at hf


/-- An operator state whose callable is a lambda. -/
def pLambda : VOpParams :=
  { pBase with python_callable := { fnSample with name := "<lambda>" } }

/-- Witness for C4: a lambda-named callable is rejected. -/
theorem claim_C4_witness :
    (pLambda.python_callable.isFunction = false ∨
      pLambda.python_callable.name = lambdaName)
    ∧ ∃ e, construct 3 pLambda = Except.error e :=
  ⟨Or.inr rfl, claim_C4_nonfunction_or_lambda_rejected 3 pLambda (Or.inr rfl)⟩

/-- **C5**: under an otherwise valid configuration (callable object, plain
non-lambda function, version check not triggered), construction fails if
and only if `use_dill` is set, `system_site_packages` is not, and no
requirement starts (case-insensitively) with `dill`; the failure is the
dill configuration error; inheriting system packages or listing the
library makes construction with `use_dill` succeed. -/
theorem claim_C5_dill_requirements_check (callerMajor : Nat) (p : VOpParams)
    (hco : p.python_callable.isCallableObj = true)
    (hfn : callableCheckTriggers p = false)
    (hv : versionCheckTriggers callerMajor p = false) :
    (construct callerMajor p ≠ Except.ok () ↔
      (p.use_dill = true ∧ p.system_site_packages = false ∧
        ∀ r ∈ p.requirements, (pyStartsWith (pyLower r) "dill") = false))
    ∧ (construct callerMajor p ≠ Except.ok () →
        construct callerMajor p = Except.error ConfigError.dillMisconfig)
    ∧ ((p.system_site_packages = true ∨ dill_in_requirements p.requirements = true) →
        construct callerMajor p = Except.ok ()) := by
  have hc : construct callerMajor p =
      (if dillCheckTriggers p then Except.error ConfigError.dillMisconfig
       else Except.ok ()) := by
    simp [construct, hco, hfn, hv]
  have hany : dill_in_requirements p.requirements = false ↔
      ∀ r ∈ p.requirements, (pyStartsWith (pyLower r) "dill") = false := by
    simp [dill_in_requirements]
  have hiff : dillCheckTriggers p = true ↔
      (p.use_dill = true ∧ p.system_site_packages = false ∧
        ∀ r ∈ p.requirements, (pyStartsWith (pyLower r) "dill") = false) := by
    rw [dillCheckTriggers, Bool.and_eq_true, Bool.and_eq_true,
      Bool.not_eq_true', Bool.not_eq_true', hany]
    tauto
  rw [hc]
  by_cases hd : dillCheckTriggers p = true
  · rw [if_pos hd]
    refine ⟨?_, fun _ => rfl, ?_⟩
    · simp only [ne_eq]
      constructor
      · intro _; exact hiff.mp hd
      · intro _ h; exact Except.noConfusion h
    · intro hor
      exfalso
      rcases hor with hssp | hreq
      · simp [dillCheckTriggers, hssp] at hd
      · simp [dillCheckTriggers, hreq] at hd
  · rw [if_neg hd]
    have hd' : dillCheckTriggers p = false := by simpa using hd
    refine ⟨?_, fun h => absurd rfl h, fun _ => rfl⟩
    constructor
    · intro h; exact absurd rfl h
    · intro h
      exact absurd (hiff.mpr h) (by simp [hd'])

/-- `use_dill` without system site packages and without `dill` in the
requirements. -/
def pDillBad : VOpParams :=
  { pBase with
    use_dill := true
    system_site_packages := false
    requirements := ["numpy"] }

/-- `use_dill` without system site packages but with a `Dill...` entry in
the requirements. -/
def pDillOk : VOpParams :=
  { pBase with
    use_dill := true
    system_site_packages := false
    requirements := ["numpy", "Dill>=0.2"] }

/-- Witness for C5: with `use_dill`, no system packages, and `dill` absent
from the requirements, construction fails with the dill error; adding
`dill` to the requirements makes it succeed. -/
theorem claim_C5_witness :
    (pDillBad.python_callable.isCallableObj = true)
    ∧ (callableCheckTriggers pDillBad = false)
    ∧ (versionCheckTriggers 3 pDillBad = false)
    ∧ (construct 3 pDillBad = Except.error ConfigError.dillMisconfig)
    ∧ (construct 3 pDillOk = Except.ok ()) :=
  ⟨rfl, rfl, rfl,
   (claim_C5_dill_requirements_check 3 pDillBad rfl rfl rfl).2.1
     ((claim_C5_dill_requirements_check 3 pDillBad rfl rfl rfl).1.mpr
       ⟨rfl, rfl, by decide⟩),
   (claim_C5_dill_requirements_check 3 pDillOk rfl rfl rfl).2.2
     (Or.inr (by decide))⟩

/-- **C2**: under an otherwise valid configuration, when `python_version`
is given and its first character differs from the first character of the
caller interpreter's major version, construction raises the cross-version
configuration error exactly when positional/keyword arguments are present,
and succeeds when `op_args` and `op_kwargs` are both empty (string-args
play no role in the check). `construct` is pure: no subprocess and no
workspace exists at construction time. -/
theorem claim_C2_cross_version_args_check (callerMajor : Nat) (p : VOpParams)
    (v : String)
    (hco : p.python_callable.isCallableObj = true)
    (hd : dillCheckTriggers p = false)
    (hfn : callableCheckTriggers p = false)
    (hpv : p.python_version = Option.some v)
    (hdiff : v.data.head? ≠ (toString callerMajor).data.head?) :
    (pass_op_args p = true →
      construct callerMajor p = Except.error ConfigError.crossVersionArgs)
    ∧ (p.op_args = [] → p.op_kwargs = [] →
        construct callerMajor p = Except.ok ()) := by
  have hc : construct callerMajor p =
      (if versionCheckTriggers callerMajor p then
        Except.error ConfigError.crossVersionArgs
       else Except.ok ()) := by
    simp [construct, hco, hd, hfn]
  constructor
  · intro hpass
    have hv : versionCheckTriggers callerMajor p = true := by
      rw [versionCheckTriggers, hpv]
      simp [hpass, bne_iff_ne, hdiff]
    rw [hc, if_pos hv]
  · intro ha hk
    have hpass : pass_op_args p = false := by
      simp [pass_op_args, ha, hk]
    have hv : versionCheckTriggers callerMajor p = false := by
      rw [versionCheckTriggers, hpv]
      simp [hpass]
    rw [hc, if_neg (by simp [hv])]

/-- A Python-2 target version with only string-args. -/
def pVer2Str : VOpParams :=
  { pBase with
    python_version := Option.some "2"
    string_args := ["alpha", "beta"] }

/-- A Python-2 target version with a positional argument. -/
def pVer2Args : VOpParams :=
  { pBase with
    python_version := Option.some "2"
    op_args := [PyValue.int 1] }

/-- Witness for C2, with the caller on Python major version 3: a `"2"`
target version with one positional argument is rejected with the
cross-version error, while the same configuration with only string-args
constructs successfully. -/
theorem claim_C2_witness :
    (pVer2Args.python_callable.isCallableObj = true)
    ∧ (dillCheckTriggers pVer2Args = false)
    ∧ (callableCheckTriggers pVer2Args = false)
    ∧ (pVer2Args.python_version = Option.some "2")
    ∧ (("2" : String).data.head? ≠ (toString (3 : Nat)).data.head?)
    ∧ (construct 3 pVer2Args = Except.error ConfigError.crossVersionArgs)
    ∧ (construct 3 pVer2Str = Except.ok ()) :=
  ⟨rfl, rfl, rfl, rfl, by decide,
   (claim_C2_cross_version_args_check 3 pVer2Args "2" rfl rfl rfl rfl
     (by decide)).1 rfl,
   (claim_C2_cross_version_args_check 3 pVer2Str "2" rfl rfl rfl rfl
     (by decide)).2 rfl rfl⟩

/-- Helper: with all four checks negative, construction succeeds. -/
lemma construct_ok_of_checks (callerMajor : Nat) (p : VOpParams)
    (hco : p.python_callable.isCallableObj = true)
    (hd : dillCheckTriggers p = false)
    (hfn : callableCheckTriggers p = false)
    (hv : versionCheckTriggers callerMajor p = false) :
    construct callerMajor p = Except.ok () := by
  simp [construct, hco, hd, hfn, hv]

/-- Helper: the version check never triggers without positional/keyword
arguments. -/
lemma versionCheck_false_of_no_args (callerMajor : Nat) (p : VOpParams)
    (h : pass_op_args p = false) :
    versionCheckTriggers callerMajor p = false := by
  cases hpv : p.python_version <;> simp [versionCheckTriggers, hpv, h]

/-- **C9**: the construction-time cross-major-version argument check is not
preserved at execution time. With empty `op_args`/`op_kwargs`, construction
succeeds even under a differing `python_version`; but `execute_callable`
first merges a non-empty `templates_dict` into `op_kwargs` (source lines
264-265), after which `_pass_op_args()` holds, the serialized input file is
written, and the generated script contains the load line. -/
theorem claim_C9_templates_dict_bypass (callerMajor : Nat) (p : VOpParams)
    (v : String) (td : List (String × PyValue))
    (hco : p.python_callable.isCallableObj = true)
    (hd : dillCheckTriggers p = false)
    (hfn : callableCheckTriggers p = false)
    (_hpv : p.python_version = Option.some v)
    (_hdiff : v.data.head? ≠ (toString callerMajor).data.head?)
    (hargs : p.op_args = []) (hkw : p.op_kwargs = [])
    (htd : p.templates_dict = Option.some td) (htdne : td ≠ []) :
    construct callerMajor p = Except.ok ()
    ∧ pass_op_args (merged p) = true
    ∧ write_args callerMajor (merged p) ≠ Option.none
    ∧ load_args_line_str (pickling_library (merged p)) ∈
        generate_python_code (merged p) := by
  obtain ⟨a, t, rfl⟩ : ∃ a t, td = a :: t := by
    cases td with
    | nil => exact absurd rfl htdne
    | cons a t => exact ⟨a, t, rfl⟩
  have hpass0 : pass_op_args p = false := by
    simp [pass_op_args, hargs, hkw]
  have hok : construct callerMajor p = Except.ok () :=
    construct_ok_of_checks callerMajor p hco hd hfn
      (versionCheck_false_of_no_args callerMajor p hpass0)
  have hm : merged p =
      { p with op_kwargs := [("templates_dict", PyValue.dict (a :: t))] } := by
    simp [merged, htd, hkw, dictSet]
  have hpassM : pass_op_args (merged p) = true := by
    simp [hm, pass_op_args]
  refine ⟨hok, hpassM, ?_, ?_⟩
  · simp [write_args, hpassM]
  · simp [generate_python_code, load_args_line, hpassM]

/-- An operator state that passes construction (no positional/keyword
arguments) yet carries a non-empty `templates_dict` and a cross-major
`python_version`. -/
def pTemplates : VOpParams :=
  { pBase with
    python_version := Option.some "2"
    templates_dict := Option.some [("x", PyValue.int 7)] }

/-- Witness for C9, with the caller on Python major version 3. -/
theorem claim_C9_witness :
    (pTemplates.op_args = [] ∧ pTemplates.op_kwargs = [] ∧
      pTemplates.templates_dict = Option.some [("x", PyValue.int 7)])
    ∧ construct 3 pTemplates = Except.ok ()
    ∧ pass_op_args (merged pTemplates) = true
    ∧ write_args 3 (merged pTemplates) ≠ Option.none
    ∧ load_args_line_str (pickling_library (merged pTemplates)) ∈
        generate_python_code (merged pTemplates) := by
  have h := claim_C9_templates_dict_bypass 3 pTemplates "2" [("x", PyValue.int 7)]
    rfl rfl rfl rfl (by decide) rfl rfl rfl (by simp)
  exact ⟨⟨rfl, rfl, rfl⟩, h.1, h.2.1, h.2.2.1, h.2.2.2⟩

/-- Helper: the first character of `a ++ b` is the first character of a
non-empty `a`. -/
lemma data_head?_append (a b : String) (c : Char) (h : a.data.head? = some c) :
    (a ++ b).data.head? = some c := by
  rcases ha : a.data with _ | ⟨x, xs⟩
  · rw [ha] at h; exact absurd h (by simp)
  · rw [String.data_append, ha]
    rw [ha] at h
    simpa using h

/-- Helper: the generated load line starts with `w` whatever the library
name is. -/
lemma load_args_line_str_head (lib : String) :
    (load_args_line_str lib).data.head? = some 'w' := by
  have hassoc : load_args_line_str lib =
      "with open(sys.argv[1], \"rb\") as f: arg_dict = " ++ (lib ++ ".load(f)") := by
    rw [load_args_line_str, String.append_assoc]
  rw [hassoc]
  exact data_head?_append _ _ _ (by decide)

/-- Helper: strings with distinct first characters are distinct. -/
lemma ne_of_head? {s t : String} {c d : Char} (hs : s.data.head? = some c)
    (ht : t.data.head? = some d) (hcd : c ≠ d) : s ≠ t := by
  intro e
  rw [e, ht] at hs
  exact hcd (Option.some.inj hs).symm

/-- Helper: when no positional/keyword arguments are passed and the
callable's own source does not contain the load line, the generated script
does not contain it either (every framework line differs from it). -/
lemma load_line_notin_code (p : VOpParams)
    (hnc : load_args_line_str (pickling_library p) ∉ p.python_callable.sourceLines)
    (hpa : pass_op_args p = false) :
    load_args_line_str (pickling_library p) ∉ generate_python_code p := by
  intro hmem
  have hres : ("res = " ++ p.python_callable.name ++ "(*args, **kwargs)").data.head? =
      some 'r' :=
    data_head?_append _ _ _ (data_head?_append "res = " _ 'r' (by decide))
  simp only [generate_python_code, load_args_line, hpa, if_false, Bool.false_eq_true,
    List.mem_append, List.mem_cons, List.not_mem_nil, or_false, or_assoc] at hmem
  have hlib : pickling_library p = "dill" ∨ pickling_library p = "pickle" := by
    by_cases hud : p.use_dill <;> simp [pickling_library, pickling_library_of, hud]
  rcases hlib with hlib | hlib <;> rw [hlib] at hmem hnc <;>
    rcases hmem with h|h|h|h|h|h|h|h|h|h|h <;>
    first
      | exact absurd h (by decide)
      | exact hnc h
      | exact absurd h (ne_of_head? (load_args_line_str_head _) hres (by decide))

/-- **C1**: the serialized input file is written iff
`len(op_args) + len(op_kwargs) > 0`, as the `{args, kwargs}` blob pickled
with the library selected by `use_dill`; the synthesized script contains
the load-from-`sys.argv[1]` line iff the file was written, and otherwise
contains the empty-initialization line; with zero positional and keyword
arguments no input file exists and the script never reads one. -/
theorem claim_C1_input_file_iff_args (callerMajor : Nat) (p : VOpParams)
    (hnc : load_args_line_str (pickling_library p) ∉ p.python_callable.sourceLines) :
    ((write_args callerMajor p).isSome = true ↔ pass_op_args p = true)
    ∧ (pass_op_args p = true →
        write_args callerMajor p =
          Option.some { lib := pickling_library p, writerMajor := callerMajor,
                        value := arg_dict_value p })
    ∧ (load_args_line_str (pickling_library p) ∈ generate_python_code p ↔
        pass_op_args p = true)
    ∧ (pass_op_args p = false → empty_args_line_str ∈ generate_python_code p)
    ∧ (p.op_args = [] → p.op_kwargs = [] →
        write_args callerMajor p = Option.none ∧
        load_args_line_str (pickling_library p) ∉ generate_python_code p) := by
  by_cases hpa : pass_op_args p = true
  · refine ⟨by simp [write_args, hpa], fun _ => by simp [write_args, hpa], ?_, ?_, ?_⟩
    · constructor
      · intro _; exact hpa
      · intro _; simp [generate_python_code, load_args_line, hpa]
    · intro h; exact absurd hpa (by simp [h])
    · intro ha hk
      exact absurd hpa (by simp [pass_op_args, ha, hk])
  · have hpa' : pass_op_args p = false := by simpa using hpa
    have hnotin := load_line_notin_code p hnc hpa'
    refine ⟨by simp [write_args, hpa'], fun h => absurd h hpa, ?_, ?_, ?_⟩
    · constructor
      · intro h; exact absurd h hnotin
      · intro h; exact absurd h hpa
    · intro _; simp [generate_python_code, load_args_line, hpa']
    · intro _ _; exact ⟨by simp [write_args, hpa'], hnotin⟩

/-- Witness for C1 at a concrete operator: zero arguments, so no input
file and no load line; the script instead carries the empty-init line. -/
theorem claim_C1_witness :
    (load_args_line_str (pickling_library pBase) ∉ pBase.python_callable.sourceLines)
    ∧ ((write_args 3 pBase).isSome = true ↔ pass_op_args pBase = true)
    ∧ (empty_args_line_str ∈ generate_python_code pBase)
    ∧ (write_args 3 pBase = Option.none ∧
        load_args_line_str (pickling_library pBase) ∉ generate_python_code pBase) := by
  have h := claim_C1_input_file_iff_args 3 pBase (by decide)
  exact ⟨by decide, h.1, h.2.2.2.1 rfl, h.2.2.2.2 rfl rfl⟩

/-- **C3**: `_read_result` returns the absent sentinel (`None`) exactly for
a zero-length output file; a non-empty file is decoded by the branch
selected by `use_dill` (`dill.load` when true, `pickle.load` when false);
a false-like non-`None` value written by the script yields non-empty
content that decodes back to that value; and a deserialization failure is
logged with the cross-major-version diagnostic and re-raised. -/
theorem claim_C3_read_result_contract (ud : Bool) (rm : Nat) :
    (read_result ud rm Option.none = ([], Except.ok PyValue.none))
    ∧ (∀ q : Pickled, (read_result ud rm (Option.some q)).2 =
        (if ud then dill_load rm q else pickle_load rm q))
    ∧ (∀ res : PyValue,
        ((read_result ud rm (script_output_file (pickling_library_of ud) rm res)).2
          = Except.ok PyValue.none ↔ res.isNone = true))
    ∧ (∀ res : PyValue, res.isNone = false →
        script_output_file (pickling_library_of ud) rm res ≠ Option.none ∧
        read_result ud rm (script_output_file (pickling_library_of ud) rm res)
          = ([], Except.ok res))
    ∧ (∀ q : Pickled, ∀ e : PyErr,
        (if ud then dill_load rm q else pickle_load rm q) = Except.error e →
        read_result ud rm (Option.some q) =
          ([deserialize_error_msg], Except.error e)) := by
  have hload : ∀ q : Pickled,
      (if ud then dill_load rm q else pickle_load rm q) =
        (if q.writerMajor = rm then Except.ok q.value
         else Except.error PyErr.valueError) := by
    intro q
    cases ud <;> simp [dill_load, pickle_load]
  refine ⟨rfl, ?_, ?_, ?_, ?_⟩
  · intro q
    rw [read_result, hload q]
    by_cases hq : q.writerMajor = rm <;> simp [hq]
  · intro res
    cases hres : res.isNone
    · have hne : res ≠ PyValue.none := by
        intro h; rw [h] at hres; exact Bool.noConfusion hres
      simp only [script_output_file, hres, if_false, Bool.false_eq_true, read_result,
        hload]
      simp [hne]
    · have hre : res = PyValue.none := by
        cases res <;> first | rfl | exact Bool.noConfusion hres
      simp [script_output_file, hres, read_result, hre, PyValue.isNone]
  · intro res hres
    constructor
    · simp [script_output_file, hres]
    · simp only [script_output_file, hres, if_false, Bool.false_eq_true, read_result,
        hload]
      simp
  · intro q e he
    rw [hload q] at he
    by_cases hq : q.writerMajor = rm
    · rw [if_pos hq] at he; exact Except.noConfusion he
    · rw [if_neg hq] at he
      have he' : e = PyErr.valueError := by
        injection he with h; exact h.symm
      rw [read_result, hload q, if_neg hq, he']
      simp

/-- Witness for C3, `use_dill` on, reader on major version 3: the int `0`
round-trips through a non-empty file and is distinct from the sentinel,
while a blob written by a Python-2 interpreter fails to load, is logged
with the diagnostic, and the `ValueError` is re-raised. -/
theorem claim_C3_witness :
    ((PyValue.int 0).isNone = false)
    ∧ (script_output_file (pickling_library_of true) 3 (PyValue.int 0) ≠ Option.none)
    ∧ (read_result true 3 (script_output_file (pickling_library_of true) 3 (PyValue.int 0))
        = ([], Except.ok (PyValue.int 0)))
    ∧ (dill_load 3 { lib := "dill", writerMajor := 2, value := PyValue.str "x" }
        = Except.error PyErr.valueError)
    ∧ (read_result true 3
        (Option.some { lib := "dill", writerMajor := 2, value := PyValue.str "x" })
        = ([deserialize_error_msg], Except.error PyErr.valueError)) :=
  ⟨rfl,
   ((claim_C3_read_result_contract true 3).2.2.2.1 (PyValue.int 0) rfl).1,
   ((claim_C3_read_result_contract true 3).2.2.2.1 (PyValue.int 0) rfl).2,
   rfl,
   (claim_C3_read_result_contract true 3).2.2.2.2
     { lib := "dill", writerMajor := 2, value := PyValue.str "x" }
     PyErr.valueError rfl⟩

/-- **C10**: the synthesized script opens the output file for writing
unconditionally and serializes into it only a non-`None` result, so after
every successful run the file exists, is zero-length exactly when the
result was `None`, and `_read_result`'s `os.stat` call never sees a
missing file. -/
theorem claim_C10_output_file_always_exists (lib : String) (scriptMajor : Nat)
    (res : PyValue) (ud : Bool) (rm : Nat) :
    (script_write_result lib scriptMajor res ≠ Option.none)
    ∧ (script_write_result lib scriptMajor res = Option.some Option.none ↔
        res.isNone = true)
    ∧ (read_result_fs ud rm (script_write_result lib scriptMajor res) ≠
        Except.error StatErr.fileNotFound) := by
  refine ⟨by simp [script_write_result], ?_, by simp [script_write_result, read_result_fs]⟩
  cases hres : res.isNone <;>
    simp [script_write_result, script_output_file, hres]

/-- Helper: a statement sequence attempts exactly the prefix through the
first failure and completes iff no step fails. -/
lemma runSeq_eq (fails : Step → Bool) (l : List Step) :
    runSeq fails l = (takeThruFirstFail fails l, l.all (fun s => !fails s)) := by
  induction l with
  | nil => rfl
  | cons s rest ih =>
      by_cases hs : fails s = true
      · simp [runSeq, takeThruFirstFail, hs]
      · have hs' : fails s = false := by simpa using hs
        simp [runSeq, takeThruFirstFail, hs', ih]

/-- Helper: when every step succeeds, the attempted prefix is the whole
sequence. -/
lemma takeThruFirstFail_of_all (fails : Step → Bool) (l : List Step)
    (h : l.all (fun s => !fails s) = true) :
    takeThruFirstFail fails l = l := by
  induction l with
  | nil => rfl
  | cons s rest ih =>
      rw [List.all_cons, Bool.and_eq_true] at h
      have hs : fails s = false := by simpa using h.1
      simp [takeThruFirstFail, hs, ih h.2]

/-- **C6**: one invocation of `execute_callable` performs the steps in the
strict source order — workspace creation, environment creation, dependency
install (skipped exactly when `requirements` is empty, in which case the
builder returns the empty no-op command), input write, script write,
string-args write, script run, result read — with no retries and no
backward transitions; the first raising step aborts the invocation with no
success result, and the workspace release still runs. -/
theorem claim_C6_execution_sequence (p : VOpParams) (tmp_dir : String)
    (fails : Step → Bool) (hws : fails Step.createWorkspace = false) :
    (execute_callable_trace p tmp_dir fails =
      (Step.createWorkspace :: takeThruFirstFail fails (bodySteps p tmp_dir)
         ++ [Step.releaseWorkspace],
       (bodySteps p tmp_dir).all (fun s => !fails s)))
    ∧ (Step.releaseWorkspace ∈ (execute_callable_trace p tmp_dir fails).1)
    ∧ ((execute_callable_trace p tmp_dir fails).2 = true →
        (execute_callable_trace p tmp_dir fails).1 =
          Step.createWorkspace :: bodySteps p tmp_dir ++ [Step.releaseWorkspace])
    ∧ ((∃ s ∈ bodySteps p tmp_dir, fails s = true) →
        (execute_callable_trace p tmp_dir fails).2 = false)
    ∧ (generate_pip_install_cmd p tmp_dir = [] ↔ p.requirements = [])
    ∧ (p.requirements = [] →
        bodySteps p tmp_dir =
          [Step.venvCmd, Step.writeInputs, Step.writeScript,
           Step.writeStringArgs, Step.runScriptCmd, Step.readResultStep])
    ∧ (p.requirements ≠ [] →
        bodySteps p tmp_dir =
          [Step.venvCmd, Step.pipInstallCmd, Step.writeInputs, Step.writeScript,
           Step.writeStringArgs, Step.runScriptCmd, Step.readResultStep]) := by
  have hpip : generate_pip_install_cmd p tmp_dir = [] ↔ p.requirements = [] := by
    rw [generate_pip_install_cmd]
    by_cases hr : p.requirements.length = 0
    · simp [hr, List.length_eq_zero.mp hr]
    · have : p.requirements ≠ [] := by
        intro h; exact hr (by simp [h])
      simp [hr, this]
  have htr : execute_callable_trace p tmp_dir fails =
      (Step.createWorkspace :: takeThruFirstFail fails (bodySteps p tmp_dir)
         ++ [Step.releaseWorkspace],
       (bodySteps p tmp_dir).all (fun s => !fails s)) := by
    rw [execute_callable_trace, if_neg (by simp [hws]), runSeq_eq]
  refine ⟨htr, ?_, ?_, ?_, hpip, ?_, ?_⟩
  · rw [htr]
    simp
  · intro hok
    rw [htr] at hok ⊢
    simp only at hok ⊢
    rw [takeThruFirstFail_of_all fails _ hok]
  · rintro ⟨s, hmem, hfail⟩
    rw [htr]
    simp only
    rw [List.all_eq_false]
    exact ⟨s, hmem, by simp [hfail]⟩
  · intro hr
    rw [bodySteps, hpip.mpr hr]
    simp
  · intro hr
    have : ¬ generate_pip_install_cmd p tmp_dir = [] := fun h => hr (hpip.mp h)
    rw [bodySteps, if_neg this]
    simp

/-- A failure oracle making the script-write step raise. -/
def failsAtWriteScript : Step → Bool := fun s => s == Step.writeScript

/-- Witness for C6: with no requirements and a failure injected at the
script-write step, the invocation attempts exactly workspace creation,
environment creation, input write, script write — then aborts (no pip
step, no run, no read), yet the release still appears in the trace. -/
theorem claim_C6_witness :
    (failsAtWriteScript Step.createWorkspace = false)
    ∧ (execute_callable_trace pBase "/tmp/venv" failsAtWriteScript =
        (Step.createWorkspace :: takeThruFirstFail failsAtWriteScript
            (bodySteps pBase "/tmp/venv") ++ [Step.releaseWorkspace],
         (bodySteps pBase "/tmp/venv").all (fun s => !failsAtWriteScript s)))
    ∧ (Step.releaseWorkspace ∈
        (execute_callable_trace pBase "/tmp/venv" failsAtWriteScript).1) :=
  ⟨rfl,
   (claim_C6_execution_sequence pBase "/tmp/venv" failsAtWriteScript rfl).1,
   (claim_C6_execution_sequence pBase "/tmp/venv" failsAtWriteScript rfl).2.1⟩

/-- The environment-creation command as the claim words it (refinement
comparison only): builder binary, workspace path, optional
inherit-system-packages flag, then the interpreter-version flag written
`--python=<version>` with `<version>` the given `python_version` string. -/
def claimed_virtualenv_cmd (p : VOpParams) (tmp_dir : String) : List String :=
  ["virtualenv", tmp_dir]
  ++ (if p.system_site_packages then ["--system-site-packages"] else [])
  ++ (match p.python_version with
      | Option.some v => ["--python=" ++ v]
      | Option.none => [])

/-- An operator state with a `"2.7"` interpreter version. -/
def pVer27 : VOpParams :=
  { pBase with python_version := Option.some "2.7" }

/-- Counterexample to C7 as stated: for `python_version = "2.7"` the code
emits the flag `--python=python2.7`, not `--python=2.7`, so the generated
command differs from the claim's stated shape. -/
theorem claim_C7_counterexample :
    generate_virtualenv_cmd pVer27 "/tmp/venv" =
      ["virtualenv", "/tmp/venv", "--system-site-packages", "--python=python2.7"]
    ∧ claimed_virtualenv_cmd pVer27 "/tmp/venv" =
      ["virtualenv", "/tmp/venv", "--system-site-packages", "--python=2.7"]
    ∧ generate_virtualenv_cmd pVer27 "/tmp/venv" ≠
      claimed_virtualenv_cmd pVer27 "/tmp/venv" := by
  refine ⟨by decide, by decide, by decide⟩

/-- **C7 (amended)**: the three generated commands have exactly the stated
shapes and orders, except that the interpreter-version flag is
`--python=python<version>`: the environment-creation command is the
builder binary, the workspace path, the optional
`--system-site-packages` flag (present iff `system_site_packages`), then
optionally `--python=python<version>` (present iff `python_version` is
given); the install command is `<path>/bin/pip install` followed by the
requirements in order; the run command is `<path>/bin/python`, the script
path, then input, output, and string-args paths in that fixed trailing
order — positions 1, 2, 3 of the synthesized script's argument vector,
the indices the script template reads. -/
theorem claim_C7_amended_cmd_shapes (p : VOpParams)
    (tmp_dir script_fn input_fn output_fn stringargs_fn : String) :
    (∀ v, p.python_version = Option.some v →
      generate_virtualenv_cmd p tmp_dir =
        ["virtualenv", tmp_dir]
        ++ (if p.system_site_packages then ["--system-site-packages"] else [])
        ++ ["--python=python" ++ v])
    ∧ (p.python_version = Option.none →
        generate_virtualenv_cmd p tmp_dir =
          ["virtualenv", tmp_dir]
          ++ (if p.system_site_packages then ["--system-site-packages"] else []))
    ∧ (p.requirements ≠ [] →
        generate_pip_install_cmd p tmp_dir =
          (tmp_dir ++ "/bin/pip") :: "install" :: p.requirements)
    ∧ (p.requirements = [] → generate_pip_install_cmd p tmp_dir = [])
    ∧ (generate_python_cmd tmp_dir script_fn input_fn output_fn stringargs_fn =
        [tmp_dir ++ "/bin/python", script_fn, input_fn, output_fn, stringargs_fn])
    ∧ ((generate_python_cmd tmp_dir script_fn input_fn output_fn
          stringargs_fn).drop 1 = [script_fn, input_fn, output_fn, stringargs_fn])
    ∧ (((generate_python_cmd tmp_dir script_fn input_fn output_fn
          stringargs_fn).drop 1).get? 1 = Option.some input_fn)
    ∧ (((generate_python_cmd tmp_dir script_fn input_fn output_fn
          stringargs_fn).drop 1).get? 2 = Option.some output_fn)
    ∧ (((generate_python_cmd tmp_dir script_fn input_fn output_fn
          stringargs_fn).drop 1).get? 3 = Option.some stringargs_fn) := by
  refine ⟨?_, ?_, ?_, ?_, rfl, rfl, rfl, rfl, rfl⟩
  · intro v hv
    rw [generate_virtualenv_cmd, hv]
  · intro hv
    rw [generate_virtualenv_cmd, hv]
    simp
  · intro hr
    rw [generate_pip_install_cmd, if_neg (by simpa using hr)]
  · intro hr
    rw [generate_pip_install_cmd, if_pos (by simp [hr])]

/-- Witness for the amended C7 at concrete inputs. -/
theorem claim_C7_amended_witness :
    (pVer27.python_version = Option.some "2.7")
    ∧ generate_virtualenv_cmd pVer27 "/w" =
        ["virtualenv", "/w"]
        ++ (if pVer27.system_site_packages then ["--system-site-packages"] else [])
        ++ ["--python=python" ++ "2.7"]
    ∧ generate_pip_install_cmd pDillOk "/w" =
        ("/w" ++ "/bin/pip") :: "install" :: pDillOk.requirements
    ∧ generate_python_cmd "/w" "s.py" "in.bin" "out.bin" "sa.txt" =
        ["/w" ++ "/bin/python", "s.py", "in.bin", "out.bin", "sa.txt"] :=
  ⟨rfl,
   (claim_C7_amended_cmd_shapes pVer27 "/w" "s" "i" "o" "a").1 "2.7" rfl,
   (claim_C7_amended_cmd_shapes pDillOk "/w" "s" "i" "o" "a").2.2.1 (by decide),
   (claim_C7_amended_cmd_shapes (p := pBase) "/w" "s.py" "in.bin" "out.bin"
     "sa.txt").2.2.2.2.1⟩

/-- Helper: iterating a newline-free character list yields it as a single
line (or nothing when it is empty together with the accumulator). -/
lemma pyFileLinesAux_no_newline : ∀ (l acc : List Char), '\n' ∉ l →
    pyFileLinesAux acc l =
      if acc.reverse ++ l = [] then [] else [acc.reverse ++ l] := by
  intro l
  induction l with
  | nil =>
      intro acc _
      simp only [pyFileLinesAux, List.append_nil]
      by_cases ha : acc = []
      · simp [ha]
      · rw [if_neg ha, if_neg (by simp [ha])]
  | cons c rest ih =>
      intro acc hnl
      have hc : ¬ c = '\n' := fun h => hnl (by rw [h]; exact List.mem_cons_self _ _)
      have hrest : '\n' ∉ rest := fun h => hnl (List.mem_cons_of_mem _ h)
      rw [show pyFileLinesAux acc (c :: rest) = pyFileLinesAux (c :: acc) rest by
        simp [pyFileLinesAux, hc]]
      rw [ih (c :: acc) hrest]
      have h1 : (c :: acc).reverse ++ rest = acc.reverse ++ c :: rest := by simp
      rw [h1]

/-- Helper: the first `'\n'` closes the first line, which keeps its
terminator. -/
lemma pyFileLinesAux_split : ∀ (l acc cs : List Char), '\n' ∉ l →
    pyFileLinesAux acc (l ++ '\n' :: cs) =
      ((acc.reverse ++ l) ++ ['\n']) :: pyFileLinesAux [] cs := by
  intro l
  induction l with
  | nil =>
      intro acc cs _
      simp [pyFileLinesAux]
  | cons c rest ih =>
      intro acc cs hnl
      have hc : ¬ c = '\n' := fun h => hnl (by rw [h]; exact List.mem_cons_self _ _)
      have hrest : '\n' ∉ rest := fun h => hnl (List.mem_cons_of_mem _ h)
      rw [List.cons_append]
      rw [show pyFileLinesAux acc (c :: (rest ++ '\n' :: cs)) =
          pyFileLinesAux (c :: acc) (rest ++ '\n' :: cs) by
        simp [pyFileLinesAux, hc]]
      rw [ih (c :: acc) cs hrest]
      congr 2
      simp

/-- Helper: a list fixed by a leading `dropWhile` has a non-matching head. -/
lemma dropWhile_fix_head {c : Char} {t : List Char}
    (h : (c :: t).dropWhile isPySpace = c :: t) : isPySpace c = false := by
  by_cases hc : isPySpace c = true
  · rw [List.dropWhile_cons_of_pos hc] at h
    have hle : (t.dropWhile isPySpace).length ≤ t.length :=
      (List.dropWhile_sublist isPySpace).length_le
    have hlen := congrArg List.length h
    simp only [List.length_cons] at hlen
    omega
  · simpa using hc

/-- Helper: stripping a line that carries no surrounding whitespace plus
its newline terminator recovers the line. -/
lemma pyStrip_append_newline (l : List Char)
    (h1 : l.dropWhile isPySpace = l)
    (h2 : l.reverse.dropWhile isPySpace = l.reverse) :
    pyStripList (l ++ ['\n']) = l := by
  cases l with
  | nil => decide
  | cons c t =>
      have hc : isPySpace c = false := dropWhile_fix_head h1
      rw [pyStripList, List.cons_append,
        List.dropWhile_cons_of_neg (by simp [hc])]
      have hrev : (c :: (t ++ ['\n'])).reverse = '\n' :: (c :: t).reverse := by simp
      rw [hrev, List.dropWhile_cons_of_pos (by decide), h2, List.reverse_reverse]

/-- Helper: round-trip of the string-args channel for non-empty,
newline-free, whitespace-trimmed strings. -/
lemma string_args_roundtrip_aux : ∀ (xs : List String),
    (∀ x ∈ xs, x.data ≠ [] ∧ '\n' ∉ x.data
      ∧ x.data.dropWhile isPySpace = x.data
      ∧ x.data.reverse.dropWhile isPySpace = x.data.reverse) →
    read_string_args (write_string_args xs) = xs := by
  intro xs
  induction xs with
  | nil => intro _; decide
  | cons x rest ih =>
      intro h
      obtain ⟨hx, hrest⟩ := List.forall_mem_cons.mp h
      obtain ⟨hne, hnl, h1, h2⟩ := hx
      have hstrip : String.mk (pyStripList (x.data ++ ['\n'])) = x := by
        rw [pyStrip_append_newline x.data h1 h2]
      cases rest with
      | nil =>
          show (pyFileLinesAux [] (joinNL [x])).map
              (fun cs => String.mk (pyStripList cs)) = [x]
          rw [show joinNL [x] = x.data from rfl]
          rw [pyFileLinesAux_no_newline x.data [] hnl]
          rw [show (([] : List Char).reverse ++ x.data) = x.data from by simp]
          rw [if_neg hne]
          rw [List.map_cons, List.map_nil]
          rw [pyStripList, h1, h2, List.reverse_reverse]
      | cons y rest2 =>
          show (pyFileLinesAux [] (joinNL (x :: y :: rest2))).map
              (fun cs => String.mk (pyStripList cs)) = x :: y :: rest2
          rw [show joinNL (x :: y :: rest2) = x.data ++ '\n' :: joinNL (y :: rest2)
            from rfl]
          rw [pyFileLinesAux_split x.data [] (joinNL (y :: rest2)) hnl]
          rw [List.map_cons]
          rw [show (([] : List Char).reverse ++ x.data) = x.data from by simp]
          rw [hstrip]
          congr 1
          exact ih hrest

/-- Counterexample to C8 as stated: the empty string satisfies the claim's
condition (no newline, no leading or trailing whitespace), yet the list
`[""]` does not round-trip — it is written as an empty file and read back
as the empty list. -/
theorem claim_C8_counterexample :
    (∀ x ∈ ([""] : List String), '\n' ∉ x.data
      ∧ x.data.dropWhile isPySpace = x.data
      ∧ x.data.reverse.dropWhile isPySpace = x.data.reverse)
    ∧ read_string_args (write_string_args [""]) ≠ [""] := by
  refine ⟨by decide, by decide⟩

/-- **C8 (amended)**: for every list of *non-empty* strings that contain no
newline and no leading or trailing whitespace, writing them with
`_write_string_args` and reading them as the synthesized script does
yields exactly the original list, element for element in order; the empty
list yields an empty file. -/
theorem claim_C8_amended_roundtrip (xs : List String)
    (h : ∀ x ∈ xs, x.data ≠ [] ∧ '\n' ∉ x.data
          ∧ x.data.dropWhile isPySpace = x.data
          ∧ x.data.reverse.dropWhile isPySpace = x.data.reverse) :
    read_string_args (write_string_args xs) = xs
    ∧ write_string_args [] = "" :=
  ⟨string_args_roundtrip_aux xs h, rfl⟩

/-- Witness for the amended C8 at the spec's own example `["alpha",
"beta"]`. -/
theorem claim_C8_amended_witness :
    (∀ x ∈ (["alpha", "beta"] : List String), x.data ≠ [] ∧ '\n' ∉ x.data
      ∧ x.data.dropWhile isPySpace = x.data
      ∧ x.data.reverse.dropWhile isPySpace = x.data.reverse)
    ∧ read_string_args (write_string_args ["alpha", "beta"]) = ["alpha", "beta"]
    ∧ write_string_args [] = "" :=
  ⟨by decide,
   (claim_C8_amended_roundtrip ["alpha", "beta"] (by decide)).1,
   (claim_C8_amended_roundtrip ["alpha", "beta"] (by decide)).2⟩

end PythonOperator
